import Mathlib

/-!
Shallow embedding of the WeeWX Prometheus exporter (`src/prom_export.py`).

The module under study consists of a static lookup table
`WEEWX_TO_PROMETHEUS_MAPPING` from WeeWX field names to
(Prometheus metric name, description) pairs, and a service whose
`new_loop_packet` callback walks the fields of an incoming packet and
creates or updates one Prometheus gauge per mapped field.

Modelling decisions:
* The Python dict literal becomes an association list of
  (source key, target name, description) triples; dict membership and
  subscripting become `mappingFind` (first match by key).
* A `prometheus_client` gauge is a record of its name, help description and
  current value; values are modelled as rationals (`Rat`), since the code
  performs no arithmetic on them, only stores and reports them.
  A freshly constructed gauge holds 0 (`Gauge.create`) and `Gauge.set`
  overwrites the value, as in `prometheus_client`.
* The mutable `self.prom_gauges` dict of the service becomes an association
  list inside `ServiceState`; Python object mutation of a gauge referenced
  by the dict becomes an in-place functional update of its entry
  (`dictUpdate`).  The collector registry always holds exactly the gauges
  of this dict (each gauge is registered at creation and never
  unregistered), so the dict itself models the registry contents.
* `log.warning` becomes an emitted message string; `new_loop_packet`
  returns the successor state together with the list of warnings logged,
  in order.  It is a total function: the embedded loop body can raise no
  exception.
-/

set_option maxRecDepth 100000

/-- The static mapping table of `prom_export.py`, lines 32-173: each entry is
(WeeWX source field name, Prometheus target name, help description). -/
def WEEWX_TO_PROMETHEUS_MAPPING : List (String × String × String) := [
  ("a3", "weewx_ozone", "Ozone (ppb)"),
  ("altimeter", "weewx_altimeter", "Altimeter pressure in inHg or hPa"),
  ("appTemp", "weewx_apparent_temperature_celsius", "Apparent temperature (°F/°C)"),
  ("appTemp1", "weewx_apparent_temperature_1", "Apparent Temperature Sensor 1 (°F/°C)"),
  ("barometer", "weewx_barometer", "Barometric pressure in inHg or hPa"),
  ("batteryStatus2", "weewx_battery_status_2", "Battery Status for Sensor 2"),
  ("batteryStatus3", "weewx_battery_status_3", "Battery Status for Sensor 3"),
  ("batteryStatus4", "weewx_battery_status_4", "Battery Status for Sensor 4"),
  ("batteryStatus5", "weewx_battery_status_5", "Battery Status for Sensor 5"),
  ("batteryStatus6", "weewx_battery_status_6", "Battery Status for Sensor 6"),
  ("batteryStatus7", "weewx_battery_status_7", "Battery Status for Sensor 7"),
  ("batteryStatus8", "weewx_battery_status_8", "Battery Status for Sensor 8"),
  ("cloudbase", "weewx_cloudbase_meters", "Estimated cloud base height in meters"),
  ("co", "weewx_carbon_monoxide", "Carbon Monoxide (ppm)"),
  ("co2", "weewx_carbon_dioxide", "Carbon Dioxide (ppm)"),
  ("consBatteryVoltage", "weewx_console_battery_voltage", "Console battery voltage in volts"),
  ("dateTime", "weewx_datetime_seconds", "UNIX timestamp of the WeeWX loop packet"),
  ("dayET", "weewx_day_et", "Evapotranspiration for the current day in inches or mm"),
  ("dayRain", "weewx_day_rain", "Rain amount for the current day in inches or mm"),
  ("dewpoint", "weewx_dewpoint", "Dew point temperature (°F/°C)"),
  ("dewpoint1", "weewx_dewpoint_1", "Dewpoint Sensor 1 (°F/°C)"),
  ("ET", "weewx_evapotranspiration", "Evapotranspiration in inches or millimeters"),
  ("extraAlarm1", "weewx_extra_alarm_1", "Extra alarm 1 status"),
  ("extraAlarm2", "weewx_extra_alarm_2", "Extra alarm 2 status"),
  ("extraAlarm3", "weewx_extra_alarm_3", "Extra alarm 3 status"),
  ("extraAlarm4", "weewx_extra_alarm_4", "Extra alarm 4 status"),
  ("extraAlarm5", "weewx_extra_alarm_5", "Extra alarm 5 status"),
  ("extraAlarm6", "weewx_extra_alarm_6", "Extra alarm 6 status"),
  ("extraAlarm7", "weewx_extra_alarm_7", "Extra alarm 7 status"),
  ("extraAlarm8", "weewx_extra_alarm_8", "Extra alarm 8 status"),
  ("extraHumid1", "weewx_extra_humidity_1", "Extra humidity for sensor 1 (%)"),
  ("extraHumid2", "weewx_extra_humidity_2", "Extra Humidity Sensor 2 (%)"),
  ("extraHumid3", "weewx_extra_humidity_3", "Extra Humidity Sensor 3 (%)"),
  ("extraHumid4", "weewx_extra_humidity_4", "Extra Humidity Sensor 4 (%)"),
  ("extraHumid5", "weewx_extra_humidity_5", "Extra Humidity Sensor 5 (%)"),
  ("extraHumid6", "weewx_extra_humidity_6", "Extra Humidity Sensor 6 (%)"),
  ("extraHumid7", "weewx_extra_humidity_7", "Extra Humidity Sensor 7 (%)"),
  ("extraHumid8", "weewx_extra_humidity_8", "Extra Humidity Sensor 8 (%)"),
  ("extraTemp1", "weewx_extra_temperature_1", "Extra temperature for sensor 1 (°F/°C)"),
  ("extraTemp2", "weewx_extra_temperature_2", "Extra Temperature Sensor 2 (°F/°C)"),
  ("extraTemp3", "weewx_extra_temperature_3", "Extra Temperature Sensor 3 (°F/°C)"),
  ("extraTemp4", "weewx_extra_temperature_4", "Extra Temperature Sensor 4 (°F/°C)"),
  ("extraTemp5", "weewx_extra_temperature_5", "Extra Temperature Sensor 5 (°F/°C)"),
  ("extraTemp6", "weewx_extra_temperature_6", "Extra Temperature Sensor 6 (°F/°C)"),
  ("extraTemp7", "weewx_extra_temperature_7", "Extra Temperature Sensor 7 (°F/°C)"),
  ("extraTemp8", "weewx_extra_temperature_8", "Extra Temperature Sensor 8 (°F/°C)"),
  ("forecastIcon", "weewx_forecast_icon", "Forecast icon code"),
  ("forecastRule", "weewx_forecast_rule", "Forecast rule code"),
  ("hail", "weewx_hail", "Hail in number of hailstones"),
  ("hailRate", "weewx_hail_rate", "Hail rate in number of hailstones per hour"),
  ("heatindex", "weewx_heat_index", "Heat index temperature (°F/°C)"),
  ("heatindex1", "weewx_heat_index_1", "Heat Index Sensor 1 (°F/°C)"),
  ("heatingTemp", "weewx_heating_temperature", "Heating temperature (°F/°C)"),
  ("heatingVoltage", "weewx_heating_voltage", "Heating voltage in volts"),
  ("humidex", "weewx_humidex_celsius", "Humidex temperature (°F/°C)"),
  ("humidex1", "weewx_humidex_1", "Humidex Sensor 1 (°F/°C)"),
  ("inDewpoint", "weewx_indoor_dewpoint_celsius", "Indoor dewpoint temperature (°F/°C)"),
  ("inHumidity", "weewx_indoor_humidity", "Indoor relative humidity (%)"),
  ("insideAlarm", "weewx_inside_alarm", "Inside alarm status"),
  ("insolation", "weewx_insolation", "Insolation in Langley units (calories per square centimeter)"),
  ("inTemp", "weewx_indoor_temperature", "Indoor temperature (°F/°C)"),
  ("inTempBatteryStatus", "weewx_indoor_temperature_battery_status", "Battery status of the indoor temperature sensor"),
  ("interval", "weewx_interval", "Archive interval in minutes"),
  ("leafTemp1", "weewx_leaf_temperature_1", "Leaf temperature for sensor 1 (°F/°C)"),
  ("leafTemp2", "weewx_leaf_temperature_2", "Leaf temperature for sensor 2 (°F/°C)"),
  ("leafWet1", "weewx_leaf_wetness_1", "Leaf wetness for sensor 1"),
  ("leafWet2", "weewx_leaf_wetness_2", "Leaf wetness for sensor 2"),
  ("lightning_distance", "weewx_lightning_distance", "Lightning Distance (km/miles)"),
  ("lightning_disturber_count", "weewx_lightning_disturber_count", "Lightning Disturber Count"),
  ("lightning_energy", "weewx_lightning_energy", "Lightning Energy"),
  ("lightning_noise_count", "weewx_lightning_noise_count", "Lightning Noise Count"),
  ("lightning_strike_count", "weewx_lightning_strike_count", "Lightning Strike Count"),
  ("luminosity", "weewx_luminosity", "Luminosity (lux)"),
  ("monthET", "weewx_month_et", "Evapotranspiration for the current month in inches or mm"),
  ("monthRain", "weewx_month_rain", "Rain amount for the current month in inches or mm"),
  ("nh3", "weewx_ammonia", "Ammonia (ppm)"),
  ("no2", "weewx_nitrogen_dioxide", "Nitrogen Dioxide (ppm)"),
  ("noise", "weewx_noise", "Noise (dB)"),
  ("outHumidity", "weewx_outdoor_humidity", "Outdoor relative humidity (%)"),
  ("outsideAlarm1", "weewx_outside_alarm_1", "Outside alarm 1 status"),
  ("outsideAlarm2", "weewx_outside_alarm_2", "Outside alarm 2 status"),
  ("outTemp", "weewx_outdoor_temperature", "Outdoor temperature (°F/°C)"),
  ("outTempBatteryStatus", "weewx_outdoor_temperature_battery_status", "Outdoor Temperature Battery Status"),
  ("pb", "weewx_lead", "Lead (ppb)"),
  ("pm1_0", "weewx_pm1_0", "Particulate Matter 1.0 (µg/m³)"),
  ("pm10_0", "weewx_pm10_0", "Particulate Matter 10.0 (µg/m³)"),
  ("pm2_5", "weewx_pm2_5", "Particulate Matter 2.5 (µg/m³)"),
  ("pressure", "weewx_pressure", "Station pressure in inHg or hPa"),
  ("radiation", "weewx_solar_radiation", "Solar radiation in Watts per square meter"),
  ("rain", "weewx_rain", "Rainfall since the last archive record in inches or millimeters"),
  ("rainAlarm", "weewx_rain_alarm", "Rain alarm status"),
  ("rainBatteryStatus", "weewx_rain_battery_status", "Battery status of the rain sensor"),
  ("rainRate", "weewx_rain_rate", "Rain rate in inches per hour or millimeters per hour"),
  ("referenceVoltage", "weewx_reference_voltage", "Reference voltage in volts"),
  ("rxCheckPercent", "weewx_rx_check_percent", "Percentage of radio checks received by the console"),
  ("signal2", "weewx_signal_strength_2", "Signal Strength for Sensor 2"),
  ("signal3", "weewx_signal_strength_3", "Signal Strength for Sensor 3"),
  ("signal4", "weewx_signal_strength_4", "Signal Strength for Sensor 4"),
  ("signal5", "weewx_signal_strength_5", "Signal Strength for Sensor 5"),
  ("signal6", "weewx_signal_strength_6", "Signal Strength for Sensor 6"),
  ("signal7", "weewx_signal_strength_7", "Signal Strength for Sensor 7"),
  ("signal8", "weewx_signal_strength_8", "Signal Strength for Sensor 8"),
  ("snowBatteryStatus", "weewx_snow_battery_status", "Snow Battery Status"),
  ("snowDepth", "weewx_snow_depth", "Snow Depth (in/cm)"),
  ("snowMoisture", "weewx_snow_moisture", "Snow Moisture (%)"),
  ("snowRate", "weewx_snow_rate", "Snow Rate (in/hr or cm/hr)"),
  ("so2", "weewx_sulfur_dioxide", "Sulfur Dioxide (ppb)"),
  ("soilLeafAlarm1", "weewx_soil_leaf_alarm_1", "Soil/leaf alarm 1 status"),
  ("soilLeafAlarm2", "weewx_soil_leaf_alarm_2", "Soil/leaf alarm 2 status"),
  ("soilLeafAlarm3", "weewx_soil_leaf_alarm_3", "Soil/leaf alarm 3 status"),
  ("soilLeafAlarm4", "weewx_soil_leaf_alarm_4", "Soil/leaf alarm 4 status"),
  ("soilLeafBatteryStatus", "weewx_soil_leaf_battery_status", "Battery status for the soil/leaf station (0: Ok, 1: Low)"),
  ("soilMoist1", "weewx_soil_moisture_1", "Soil moisture for sensor 1 in centibars"),
  ("soilMoist2", "weewx_soil_moisture_2", "Soil moisture for sensor 2 in centibars"),
  ("soilMoist3", "weewx_soil_moisture_3", "Soil moisture for sensor 3 in centibars"),
  ("soilMoist4", "weewx_soil_moisture_4", "Soil moisture for sensor 4 in centibars"),
  ("soilTemp1", "weewx_soil_temperature_1", "Soil temperature for sensor 1 (°F/°C)"),
  ("soilTemp2", "weewx_soil_temperature_2", "Soil temperature for sensor 2 (°F/°C)"),
  ("soilTemp3", "weewx_soil_temperature_3", "Soil temperature for sensor 3 (°F/°C)"),
  ("soilTemp4", "weewx_soil_temperature_4", "Soil temperature for sensor 4 (°F/°C)"),
  ("stormRain", "weewx_storm_rain", "Storm rain amount in inches or mm"),
  ("stormStart", "weewx_storm_start", "Storm start time in seconds since the epoch"),
  ("sunrise", "weewx_sunrise", "Sunrise time in seconds since the epoch"),
  ("sunset", "weewx_sunset", "Sunset time in seconds since the epoch"),
  ("sunshine", "weewx_sunshine", "Sunshine in minutes"),
  ("supplyVoltage", "weewx_supply_voltage", "Supply voltage in volts"),
  ("txBatteryStatus", "weewx_tx_battery_status", "Battery status for the transmitter (0: Ok, 1: Low)"),
  ("usUnits", "weewx_us_units", "Units of measurement, 1 = US, 16 = METRIC, 17 = METRICWX"),
  ("UV", "weewx_uv_index", "Ultraviolet index"),
  ("windBatteryStatus", "weewx_wind_battery_status", "Battery status for the wind sensor (0: Ok, 1: Low)"),
  ("windchill", "weewx_windchill", "Wind chill temperature (°F/°C)"),
  ("windDir", "weewx_wind_direction", "Wind direction in degrees"),
  ("windGust", "weewx_wind_gust", "Wind gust speed in miles per hour or kilometers per hour"),
  ("windGustDir", "weewx_wind_gust_direction", "Wind gust direction in degrees"),
  ("windSpeed", "weewx_wind_speed", "Wind speed in miles per hour or kilometers per hour"),
  ("windSpeed10", "weewx_wind_speed_10", "Wind speed over the last 10 minutes in mph or m/s"),
  ("yearET", "weewx_year_et", "Evapotranspiration for the current year in inches or mm"),
  ("yearRain", "weewx_year_rain", "Rain amount for the current year in inches or mm")
]

/-- Dict lookup in the mapping table: models the pair
`weewx_name in WEEWX_TO_PROMETHEUS_MAPPING` /
`WEEWX_TO_PROMETHEUS_MAPPING[weewx_name]` of the source. -/
def mappingFind (weewx_name : String) : Option (String × String) :=
  (WEEWX_TO_PROMETHEUS_MAPPING.find? (fun e => e.1 == weewx_name)).map Prod.snd

theorem mapping_keys_nodup :
    (WEEWX_TO_PROMETHEUS_MAPPING.map (fun e => e.1)).Nodup := by decide

theorem mapping_targets_nodup :
    (WEEWX_TO_PROMETHEUS_MAPPING.map (fun e => e.2.1)).Nodup := by decide

example : mappingFind "outTemp" =
    some ("weewx_outdoor_temperature", "Outdoor temperature (°F/°C)") := by decide

example : mappingFind "unknownField" = none := by decide

/-- The numeric payload of a loop-packet field.  The code stores and reports
values without any arithmetic, so rationals model them exactly. -/
abbrev Value := Rat

/-- A `prometheus_client` `Gauge` as observable through the export surface:
its metric name, its help description, and its current value.
`Gauge(prom_name, description, registry=...)` is `Gauge.create`,
`gauge.set(value)` is `Gauge.set`. -/
structure Gauge where
  name : String
  description : String
  value : Value
deriving DecidableEq, Repr

/-- `Gauge(prom_name, description, registry=self.registry)`: a fresh gauge
holds value 0 until first `set`. -/
def Gauge.create (name description : String) : Gauge :=
  { name := name, description := description, value := 0 }

/-- `gauge.set(value)`: overwrite the current value, keep name and
description. -/
def Gauge.set (g : Gauge) (v : Value) : Gauge :=
  { g with value := v }

/-- The mutable state of `PrometheusService`: the `self.prom_gauges` dict,
as an association list from Prometheus metric name to gauge, in insertion
order.  The collector registry holds exactly these gauges. -/
structure ServiceState where
  prom_gauges : List (String × Gauge)
deriving DecidableEq, Repr

/-- Python dict lookup `d[k]` / `k in d` on the gauge dict: first entry with
the given key, if any. -/
def dictLookup (d : List (String × Gauge)) (k : String) : Option Gauge :=
  (d.find? (fun e => e.1 == k)).map Prod.snd

/-- In-place mutation of the gauge object stored under key `k` (Python:
`gauge.set(value)` where `gauge = self.prom_gauges[prom_name]`): every entry
carrying key `k` now shows the updated gauge, positions unchanged. -/
def dictUpdate (d : List (String × Gauge)) (k : String) (g : Gauge) :
    List (String × Gauge) :=
  d.map (fun e => if e.1 == k then (e.1, g) else e)

/-- All entries of the gauge dict carrying key `k`; the registry restricted
to that metric name. -/
def filterKey (k : String) (d : List (String × Gauge)) :
    List (String × Gauge) :=
  d.filter (fun e => e.1 == k)

/-- The message of `log.warning` for an unmapped field (source line 204). -/
def unmappedWarning (weewx_name : String) : String :=
  "Encountered unmapped WeeWX metric \x27" ++ weewx_name ++
    "\x27. Please add a mapping in WEEWX_TO_PROMETHEUS_MAPPING."

/-- One iteration of the `for weewx_name, value in packet.items()` loop body
(source lines 191-206): skip null values; for a mapped field create the
gauge on first sight (appending to the dict) or fetch the existing one, then
set it to the value; for an unmapped field log one warning.  Returns the
successor state and the warnings emitted by this iteration. -/
def processField (st : ServiceState) (weewx_name : String)
    (value : Option Value) : ServiceState × List String :=
  match value with
  | none => (st, [])
  | some v =>
    match mappingFind weewx_name with
    | some (prom_name, description) =>
      match dictLookup st.prom_gauges prom_name with
      | none =>
          ({ prom_gauges := st.prom_gauges ++
              [(prom_name, Gauge.set (Gauge.create prom_name description) v)] },
           [])
      | some gauge =>
          ({ prom_gauges := dictUpdate st.prom_gauges prom_name
              (Gauge.set gauge v) }, [])
    | none => (st, [unmappedWarning weewx_name])

/-- `PrometheusService.new_loop_packet` (source lines 188-206): fold the loop
body over the packet's field/value pairs in iteration order.  A packet is the
items view of a Python dict: an association list whose keys are distinct.
Total by construction - no exception reaches the caller.  Returns the final
state and the concatenated warnings. -/
def new_loop_packet (st : ServiceState) :
    List (String × Option Value) → ServiceState × List String
  | [] => (st, [])
  | f :: rest =>
    let p := processField st f.1 f.2
    let q := new_loop_packet p.1 rest
    (q.1, p.2 ++ q.2)

/-- A whole sequence of loop packets, delivered one per callback. -/
def runPackets (st : ServiceState)
    (packets : List (List (String × Option Value))) : ServiceState :=
  packets.foldl (fun s r => (new_loop_packet s r).1) st

/-- `PrometheusService.__init__` (source lines 178-186), parametrized by the
mapping table an initialization-time validation pass would have to examine:
the source binds the callback, creates an empty registry and an empty
`prom_gauges` dict, and starts the HTTP server; it performs no access to the
table at all, so the embedded result ignores the argument and the
initialization unconditionally succeeds (`Except.ok`) with the empty gauge
dict.  The `Except` codomain records that Python initialization could raise
a fatal error; this one never does. -/
def initServiceChecked (table : List (String × String × String)) :
    Except String ServiceState :=
  match table with
  | _ => Except.ok { prom_gauges := [] }

/-- `PrometheusService.__init__` on the table the source actually uses. -/
def initService : Except String ServiceState :=
  initServiceChecked WEEWX_TO_PROMETHEUS_MAPPING

example :
    new_loop_packet { prom_gauges := [] } [("outTemp", some 21)] =
      ({ prom_gauges := [("weewx_outdoor_temperature",
          { name := "weewx_outdoor_temperature",
            description := "Outdoor temperature (°F/°C)", value := 21 })] },
       []) := by decide

/-! ### Facts about the mapping table and its lookup -/

/-- A successful lookup exhibits a table entry. -/
theorem mappingFind_mem {w : String} {p : String × String}
    (h : mappingFind w = some p) : (w, p) ∈ WEEWX_TO_PROMETHEUS_MAPPING := by
  unfold mappingFind at h
  cases hf : WEEWX_TO_PROMETHEUS_MAPPING.find? (fun e => e.1 == w) with
  | none => rw [hf] at h; exact absurd h (by simp)
  | some e =>
    rw [hf] at h
    have hmem := List.mem_of_find?_eq_some hf
    have hkey := List.find?_some hf
    obtain ⟨a, b⟩ := e
    simp only [beq_iff_eq] at hkey
    simp only [Option.map, Option.some.injEq] at h
    subst hkey
    subst h
    exact hmem

/-- Two source fields that resolve to the same target name are the same
field and carry the same description: targets are unique in the table. -/
theorem mappingFind_target_inj {w₁ w₂ t d₁ d₂ : String}
    (h₁ : mappingFind w₁ = some (t, d₁)) (h₂ : mappingFind w₂ = some (t, d₂)) :
    w₁ = w₂ ∧ d₁ = d₂ := by
  have m₁ := mappingFind_mem h₁
  have m₂ := mappingFind_mem h₂
  have := List.inj_on_of_nodup_map mapping_targets_nodup m₁ m₂ (by rfl)
  cases this
  exact ⟨rfl, rfl⟩

/-! ### Facts about the gauge dict -/

/-- Lookup is the head of the key-restricted registry. -/
theorem dictLookup_eq_head_filterKey (d : List (String × Gauge)) (k : String) :
    dictLookup d k = ((filterKey k d).head?).map Prod.snd := by
  induction d with
  | nil => rfl
  | cons e rest ih =>
    simp only [dictLookup, filterKey, List.find?_cons, List.filter_cons] at ih ⊢
    by_cases h : e.1 = k
    · simp [h]
    · simp only [show (e.1 == k) = false by simpa using h, if_false]
      exact ih

/-- An absent key means the key-restricted registry is empty. -/
theorem filterKey_eq_nil_of_lookup_none {d : List (String × Gauge)} {k : String}
    (h : dictLookup d k = none) : filterKey k d = [] := by
  rw [dictLookup_eq_head_filterKey] at h
  cases hf : (filterKey k d) with
  | nil => rfl
  | cons a l => rw [hf] at h; simp at h

/-- Restricting to `k` after appending one entry with a different key. -/
theorem filterKey_append_ne {k k' : String} (d : List (String × Gauge))
    (g : Gauge) (h : k' ≠ k) :
    filterKey k (d ++ [(k', g)]) = filterKey k d := by
  simp [filterKey, List.filter_append, List.filter_cons, h]

/-- Restricting to `k` after appending one entry with key `k`. -/
theorem filterKey_append_self (d : List (String × Gauge)) (k : String)
    (g : Gauge) :
    filterKey k (d ++ [(k, g)]) = filterKey k d ++ [(k, g)] := by
  simp [filterKey, List.filter_append, List.filter_cons]

/-- Updating the gauge object under another key leaves the `k`-restriction
unchanged. -/
theorem filterKey_dictUpdate_ne {k k' : String} (d : List (String × Gauge))
    (g : Gauge) (h : k' ≠ k) :
    filterKey k (dictUpdate d k' g) = filterKey k d := by
  induction d with
  | nil => rfl
  | cons e rest ih =>
    simp only [dictUpdate, List.map_cons, filterKey, List.filter_cons,
      beq_iff_eq] at ih ⊢
    by_cases he : e.1 = k'
    · simp [he, h, ih]
    · by_cases hk : e.1 = k
      · simp [he, hk, Ne.symm h, ih]
      · simp [he, hk, ih]

/-- Updating the gauge object under key `k` rewrites every `k`-entry. -/
theorem filterKey_dictUpdate_self (d : List (String × Gauge)) (k : String)
    (g : Gauge) :
    filterKey k (dictUpdate d k g) =
      (filterKey k d).map (fun e => (e.1, g)) := by
  induction d with
  | nil => rfl
  | cons e rest ih =>
    simp only [dictUpdate, List.map_cons, filterKey, List.filter_cons,
      beq_iff_eq] at ih ⊢
    by_cases he : e.1 = k
    · simp [he, ih]
    · simp [he, ih]

/-- Membership form of a successful dict lookup. -/
theorem dictLookup_mem {d : List (String × Gauge)} {k : String} {g : Gauge}
    (h : dictLookup d k = some g) : (k, g) ∈ d := by
  unfold dictLookup at h
  cases hf : d.find? (fun e => e.1 == k) with
  | none => rw [hf] at h; exact absurd h (by simp)
  | some e =>
    rw [hf] at h
    have hmem := List.mem_of_find?_eq_some hf
    have hkey := List.find?_some hf
    obtain ⟨a, b⟩ := e
    simp only [beq_iff_eq] at hkey
    simp only [Option.map, Option.some.injEq] at h
    subst hkey
    subst h
    exact hmem

/-- Equal key-restrictions give equal lookups. -/
theorem dictLookup_congr_filterKey {d₁ d₂ : List (String × Gauge)}
    {k : String} (h : filterKey k d₁ = filterKey k d₂) :
    dictLookup d₁ k = dictLookup d₂ k := by
  rw [dictLookup_eq_head_filterKey, dictLookup_eq_head_filterKey, h]

/-! ### Field-level behaviour of the loop body -/

/-- A packet field that writes to target `t`: it carries a non-null value
and its name is mapped to `t`. -/
def touchesTarget (t : String) (f : String × Option Value) : Prop :=
  ∃ v d, f.2 = some v ∧ mappingFind f.1 = some (t, d)

/-- A field with a different source name than the one mapped to `t` cannot
write to `t` (target names are unique in the table). -/
theorem not_touches_of_ne {t w d : String} (hm : mappingFind w = some (t, d))
    {f : String × Option Value} (hne : f.1 ≠ w) : ¬ touchesTarget t f := by
  rintro ⟨v', d', _, hm'⟩
  exact hne (mappingFind_target_inj hm' hm).1

/-- Frame property of one loop iteration: a field that does not write to
target `t` leaves the registry restricted to `t` untouched. -/
theorem processField_frame {t : String} (st : ServiceState)
    (f : String × Option Value) (h : ¬ touchesTarget t f) :
    filterKey t (processField st f.1 f.2).1.prom_gauges =
      filterKey t st.prom_gauges := by
  obtain ⟨w, val⟩ := f
  cases val with
  | none => rfl
  | some v =>
    cases hm : mappingFind w with
    | none => simp [processField, hm]
    | some p =>
      obtain ⟨t', d⟩ := p
      have hne : t' ≠ t := by
        intro he
        exact h ⟨v, d, rfl, by rw [hm, he]⟩
      cases hl : dictLookup st.prom_gauges t' with
      | none =>
        simp only [processField, hm, hl]
        exact filterKey_append_ne _ _ hne
      | some g =>
        simp only [processField, hm, hl]
        exact filterKey_dictUpdate_ne _ _ hne

/-- Effect of one loop iteration on its own target `t`: on first sight the
`t`-restriction becomes the single fresh gauge set to `v`; afterwards every
`t`-entry shows the fetched gauge set to `v`. -/
theorem processField_hit {w t d : String} (st : ServiceState) (v : Value)
    (hm : mappingFind w = some (t, d)) :
    filterKey t (processField st w (some v)).1.prom_gauges =
      (match dictLookup st.prom_gauges t with
       | none => [(t, Gauge.set (Gauge.create t d) v)]
       | some g => (filterKey t st.prom_gauges).map
           (fun e => (e.1, Gauge.set g v))) := by
  cases hl : dictLookup st.prom_gauges t with
  | none =>
    simp only [processField, hm, hl]
    rw [filterKey_append_self, filterKey_eq_nil_of_lookup_none hl]
    rfl
  | some g =>
    simp only [processField, hm, hl]
    exact filterKey_dictUpdate_self _ _ _

/-- The warnings of one loop iteration: one unmapped-field message exactly
when the value is non-null and the name is unmapped. -/
theorem processField_snd (st : ServiceState) (w : String) (val : Option Value) :
    (processField st w val).2 =
      if val.isSome && (mappingFind w).isNone then [unmappedWarning w]
      else [] := by
  cases val with
  | none => rfl
  | some v =>
    cases hm : mappingFind w with
    | none => simp [processField, hm]
    | some p =>
      obtain ⟨t, d⟩ := p
      cases hl : dictLookup st.prom_gauges t <;> simp [processField, hm, hl]

/-! ### Record-level behaviour of `new_loop_packet` -/

/-- Frame property of a whole packet: if no field of the packet writes to
target `t`, the registry restricted to `t` is untouched. -/
theorem new_loop_packet_frame {t : String} (st : ServiceState)
    (r : List (String × Option Value))
    (h : ∀ f ∈ r, ¬ touchesTarget t f) :
    filterKey t (new_loop_packet st r).1.prom_gauges =
      filterKey t st.prom_gauges := by
  induction r generalizing st with
  | nil => rfl
  | cons f rest ih =>
    show filterKey t
        (new_loop_packet (processField st f.1 f.2).1 rest).1.prom_gauges = _
    rw [ih _ (fun g hg => h g (List.mem_cons_of_mem _ hg)),
      processField_frame st f (h f (List.mem_cons_self _ _))]

/-- Effect of a whole packet on the target `t` of one of its mapped,
non-null fields `(w, v)`: on first sight the `t`-restriction becomes the
single fresh gauge holding `v`; otherwise every `t`-entry shows the
previously registered gauge with its value overwritten by `v`. -/
theorem new_loop_packet_hit {w t d : String} {v : Value} (st : ServiceState)
    {r : List (String × Option Value)}
    (hm : mappingFind w = some (t, d)) (hmem : (w, some v) ∈ r)
    (hnd : (r.map Prod.fst).Nodup) :
    filterKey t (new_loop_packet st r).1.prom_gauges =
      (match dictLookup st.prom_gauges t with
       | none => [(t, Gauge.set (Gauge.create t d) v)]
       | some g => (filterKey t st.prom_gauges).map
           (fun e => (e.1, Gauge.set g v))) := by
  induction r generalizing st with
  | nil => exact absurd hmem (List.not_mem_nil _)
  | cons f rest ih =>
    simp only [List.map_cons, List.nodup_cons] at hnd
    rcases List.mem_cons.mp hmem with hf | hrest
    · -- the head is the field writing to `t`; the tail cannot touch `t`
      have htail : ∀ f' ∈ rest, ¬ touchesTarget t f' := by
        intro f' hf'
        refine not_touches_of_ne hm ?_
        intro he
        rw [← hf] at hnd
        have hmm : f'.1 ∈ rest.map Prod.fst := List.mem_map_of_mem Prod.fst hf'
        rw [he] at hmm
        exact hnd.1 hmm
      show filterKey t
          (new_loop_packet (processField st f.1 f.2).1 rest).1.prom_gauges = _
      rw [new_loop_packet_frame _ _ htail, ← hf]
      exact processField_hit st v hm
    · -- the field sits in the tail; the head cannot touch `t`
      have hne : f.1 ≠ w := by
        intro he
        have hmm : (w, some v).1 ∈ rest.map Prod.fst :=
          List.mem_map_of_mem Prod.fst hrest
        rw [← he] at hmm
        exact hnd.1 hmm
      have hfr := processField_frame st f (not_touches_of_ne hm hne)
      show filterKey t
          (new_loop_packet (processField st f.1 f.2).1 rest).1.prom_gauges = _
      rw [ih _ hrest hnd.2, dictLookup_congr_filterKey hfr, hfr]

/-- Lookup form of `new_loop_packet_hit`: after the packet, the gauge
looked up under `t` holds value `v`, with the table description on first
sight and the previously registered gauge's identity otherwise. -/
theorem new_loop_packet_lookup_hit {w t d : String} {v : Value}
    (st : ServiceState) {r : List (String × Option Value)}
    (hm : mappingFind w = some (t, d)) (hmem : (w, some v) ∈ r)
    (hnd : (r.map Prod.fst).Nodup) :
    dictLookup (new_loop_packet st r).1.prom_gauges t =
      some (match dictLookup st.prom_gauges t with
            | none => Gauge.set (Gauge.create t d) v
            | some g => Gauge.set g v) := by
  rw [dictLookup_eq_head_filterKey, new_loop_packet_hit st hm hmem hnd]
  cases hl : dictLookup st.prom_gauges t with
  | none => rfl
  | some g =>
    cases hf : filterKey t st.prom_gauges with
    | nil =>
      rw [dictLookup_eq_head_filterKey, hf] at hl
      exact absurd hl (by simp)
    | cons a l => simp

/-- The warnings of a whole packet: exactly one message per non-null
unmapped field, in packet order, each naming its field. -/
theorem new_loop_packet_warnings (st : ServiceState)
    (r : List (String × Option Value)) :
    (new_loop_packet st r).2 =
      (r.filter (fun f => f.2.isSome && (mappingFind f.1).isNone)).map
        (fun f => unmappedWarning f.1) := by
  induction r generalizing st with
  | nil => rfl
  | cons f rest ih =>
    show (processField st f.1 f.2).2 ++
        (new_loop_packet (processField st f.1 f.2).1 rest).2 = _
    rw [ih, processField_snd, List.filter_cons]
    by_cases hc : (f.2.isSome && (mappingFind f.1).isNone) = true
    · simp [hc]
    · simp [hc]

/-! ### The registry-domain invariant -/

/-- Every registry entry is keyed by a target name from the mapping table,
its gauge carries that name, and its description is exactly the one the
table pairs with that target name. -/
def registryConsistent (st : ServiceState) : Prop :=
  ∀ e ∈ st.prom_gauges, e.2.name = e.1 ∧
    ∃ m ∈ WEEWX_TO_PROMETHEUS_MAPPING, m.2.1 = e.1 ∧ m.2.2 = e.2.description

/-- One loop iteration preserves the registry-domain invariant. -/
theorem processField_consistent {st : ServiceState} (w : String)
    (val : Option Value) (h : registryConsistent st) :
    registryConsistent (processField st w val).1 := by
  cases val with
  | none => exact h
  | some v =>
    cases hm : mappingFind w with
    | none => simpa [processField, hm] using h
    | some p =>
      obtain ⟨t, d⟩ := p
      cases hl : dictLookup st.prom_gauges t with
      | none =>
        simp only [processField, hm, hl]
        intro e he
        rcases List.mem_append.mp he with h1 | h2
        · exact h e h1
        · have he2 : e = (t, Gauge.set (Gauge.create t d) v) :=
            List.mem_singleton.mp h2
          subst he2
          exact ⟨rfl, (w, t, d), mappingFind_mem hm, rfl, rfl⟩
      | some g =>
        have hg := h _ (dictLookup_mem hl)
        simp only [processField, hm, hl]
        intro e he
        rcases List.mem_map.mp he with ⟨e₀, he₀, hfe⟩
        by_cases hk : e₀.1 = t
        · rw [if_pos (by simpa using hk)] at hfe
          subst hfe
          refine ⟨?_, ?_⟩
          · show g.name = e₀.1
            rw [hg.1, hk]
          · obtain ⟨m, hmem, hm1, hm2⟩ := hg.2
            exact ⟨m, hmem, by rw [hm1, hk], hm2⟩
        · rw [if_neg (by simpa using hk)] at hfe
          subst hfe
          exact h e₀ he₀
  
/-- A whole packet preserves the registry-domain invariant. -/
theorem new_loop_packet_consistent (st : ServiceState)
    (r : List (String × Option Value)) (h : registryConsistent st) :
    registryConsistent (new_loop_packet st r).1 := by
  induction r generalizing st with
  | nil => exact h
  | cons f rest ih =>
    show registryConsistent (new_loop_packet (processField st f.1 f.2).1 rest).1
    exact ih _ (processField_consistent f.1 f.2 h)

/-- A whole sequence of packets preserves the registry-domain invariant. -/
theorem runPackets_consistent (st : ServiceState)
    (packets : List (List (String × Option Value)))
    (h : registryConsistent st) :
    registryConsistent (runPackets st packets) := by
  induction packets generalizing st with
  | nil => exact h
  | cons r rest ih =>
    show registryConsistent (runPackets (new_loop_packet st r).1 rest)
    exact ih _ (new_loop_packet_consistent st r h)

/-! ### The claims -/

/-- **C1** Last-write-wins: for a mapped source field `w` with target `t`
and two packets processed in sequence, both binding `w` to a non-null value,
the gauge under `t` holds the first packet's value after the first call and
exactly the second packet's value after the second call: the first value has
been overwritten, with no averaging. -/
theorem claim_C1_last_write_wins {w t d : String} {v₁ v₂ : Value}
    (st : ServiceState) {r₁ r₂ : List (String × Option Value)}
    (hm : mappingFind w = some (t, d))
    (h₁ : (w, some v₁) ∈ r₁) (hnd₁ : (r₁.map Prod.fst).Nodup)
    (h₂ : (w, some v₂) ∈ r₂) (hnd₂ : (r₂.map Prod.fst).Nodup) :
    (dictLookup (new_loop_packet st r₁).1.prom_gauges t).map Gauge.value =
      some v₁ ∧
    (dictLookup (new_loop_packet
        (new_loop_packet st r₁).1 r₂).1.prom_gauges t).map Gauge.value =
      some v₂ := by
  constructor
  · rw [new_loop_packet_lookup_hit st hm h₁ hnd₁]
    cases dictLookup st.prom_gauges t <;> rfl
  · rw [new_loop_packet_lookup_hit _ hm h₂ hnd₂]
    cases dictLookup (new_loop_packet st r₁).1.prom_gauges t <;> rfl

/-- Witness for C1 at a concrete input: outTemp set to 1 then to 2. -/
theorem claim_C1_witness :
    (dictLookup (new_loop_packet { prom_gauges := [] }
        [("outTemp", some 1)]).1.prom_gauges
        "weewx_outdoor_temperature").map Gauge.value = some 1 ∧
    (dictLookup (new_loop_packet
        (new_loop_packet { prom_gauges := [] } [("outTemp", some 1)]).1
        [("outTemp", some 2)]).1.prom_gauges
        "weewx_outdoor_temperature").map Gauge.value = some 2 :=
  @claim_C1_last_write_wins "outTemp" "weewx_outdoor_temperature"
    "Outdoor temperature (°F/°C)" 1 2 { prom_gauges := [] }
    [("outTemp", some 1)] [("outTemp", some 2)]
    (by decide) (by decide) (by decide) (by decide) (by decide)

/-- **C2** Null-value skip: a null-valued field is skipped with no side
effect at all on the loop-body level, and across a whole packet whose
binding for the mapped field `w` is null, the registry restricted to the
field's target name `t` is identical before and after processing: no gauge
created, none updated, no zero recorded. -/
theorem claim_C2_null_skip {w t d : String} (st : ServiceState)
    {r : List (String × Option Value)}
    (hm : mappingFind w = some (t, d)) (hmem : (w, none) ∈ r)
    (hnd : (r.map Prod.fst).Nodup) :
    processField st w none = (st, []) ∧
    filterKey t (new_loop_packet st r).1.prom_gauges =
      filterKey t st.prom_gauges := by
  refine ⟨rfl, new_loop_packet_frame st r ?_⟩
  intro f hf
  by_cases he : f.1 = w
  · rintro ⟨v', d', hv, hm'⟩
    have hfe : f = (w, none) :=
      List.inj_on_of_nodup_map hnd hf hmem he
    rw [hfe] at hv
    exact absurd hv (by simp)
  · exact not_touches_of_ne hm he

/-- Witness for C2 at a concrete input: a null inHumidity next to a live
outTemp leaves the humidity registry slice untouched. -/
theorem claim_C2_witness :
    processField { prom_gauges := [] } "inHumidity" none =
      ({ prom_gauges := [] }, []) ∧
    filterKey "weewx_indoor_humidity"
      (new_loop_packet { prom_gauges := [] }
        [("outTemp", some 7), ("inHumidity", none)]).1.prom_gauges =
    filterKey "weewx_indoor_humidity"
      ({ prom_gauges := [] } : ServiceState).prom_gauges :=
  @claim_C2_null_skip "inHumidity" "weewx_indoor_humidity"
    "Indoor relative humidity (%)" { prom_gauges := [] }
    [("outTemp", some 7), ("inHumidity", none)]
    (by decide) (by decide) (by decide)

/-- **C3** Unmapped-field handling: processing a packet logs exactly one
warning per non-null field whose name is absent from the mapping table -
one message per such field, in order, each naming that field - while the
update of every mapped non-null field of the same packet is still applied;
`new_loop_packet` is a total function, so no exception reaches the caller. -/
theorem claim_C3_unmapped_warning (st : ServiceState)
    (r : List (String × Option Value)) (hnd : (r.map Prod.fst).Nodup) :
    (new_loop_packet st r).2 =
      (r.filter (fun f => f.2.isSome && (mappingFind f.1).isNone)).map
        (fun f => unmappedWarning f.1) ∧
    ∀ w t d v, mappingFind w = some (t, d) → (w, some v) ∈ r →
      (dictLookup (new_loop_packet st r).1.prom_gauges t).map Gauge.value =
        some v := by
  refine ⟨new_loop_packet_warnings st r, ?_⟩
  intro w t d v hm hmem
  rw [new_loop_packet_lookup_hit st hm hmem hnd]
  cases dictLookup st.prom_gauges t <;> rfl

/-- Witness for C3 at a concrete input: one warning for unknownField, and
outTemp is still updated. -/
theorem claim_C3_witness :
    (new_loop_packet { prom_gauges := [] }
        [("unknownField", some 3), ("outTemp", some 4)]).2 =
      ([("unknownField", some (3 : Value)), ("outTemp", some 4)].filter
          (fun f => f.2.isSome && (mappingFind f.1).isNone)).map
        (fun f => unmappedWarning f.1) ∧
    (dictLookup (new_loop_packet { prom_gauges := [] }
        [("unknownField", some 3), ("outTemp", some 4)]).1.prom_gauges
      "weewx_outdoor_temperature").map Gauge.value = some 4 :=
  ⟨(claim_C3_unmapped_warning { prom_gauges := [] }
      [("unknownField", some 3), ("outTemp", some 4)] (by decide)).1,
   (claim_C3_unmapped_warning { prom_gauges := [] }
      [("unknownField", some 3), ("outTemp", some 4)] (by decide)).2
     "outTemp" "weewx_outdoor_temperature" "Outdoor temperature (°F/°C)" 4
     (by decide) (by decide)⟩

/-- **C4** First-observation creation: if no gauge is registered yet under
the target name `t` of the mapped field `w`, then after one packet binding
`w` to the non-null value `v` the registry restricted to `t` is exactly one
gauge, named `t`, carrying the table's description for `w`, holding `v`. -/
theorem claim_C4_first_observation {w t d : String} {v : Value}
    (st : ServiceState) {r : List (String × Option Value)}
    (hm : mappingFind w = some (t, d))
    (habs : dictLookup st.prom_gauges t = none)
    (hmem : (w, some v) ∈ r) (hnd : (r.map Prod.fst).Nodup) :
    filterKey t (new_loop_packet st r).1.prom_gauges =
      [(t, { name := t, description := d, value := v })] := by
  rw [new_loop_packet_hit st hm hmem hnd, habs]
  rfl

/-- Witness for C4 at a concrete input: first observation of outTemp. -/
theorem claim_C4_witness :
    filterKey "weewx_outdoor_temperature"
      (new_loop_packet { prom_gauges := [] }
        [("outTemp", some 9)]).1.prom_gauges =
    [("weewx_outdoor_temperature",
      { name := "weewx_outdoor_temperature",
        description := "Outdoor temperature (°F/°C)", value := 9 })] :=
  @claim_C4_first_observation "outTemp" "weewx_outdoor_temperature"
    "Outdoor temperature (°F/°C)" 9 { prom_gauges := [] }
    [("outTemp", some 9)] (by decide) (by decide) (by decide) (by decide)

/-- **C5** Target-name uniqueness of the static table: two entries of
`WEEWX_TO_PROMETHEUS_MAPPING` with distinct source field names have
distinct target names - no two source fields feed the same exported
series. -/
theorem claim_C5_target_uniqueness :
    ∀ e₁ ∈ WEEWX_TO_PROMETHEUS_MAPPING, ∀ e₂ ∈ WEEWX_TO_PROMETHEUS_MAPPING,
      e₁.1 ≠ e₂.1 → e₁.2.1 ≠ e₂.2.1 := by
  intro e₁ h₁ e₂ h₂ hne he
  exact hne (congrArg Prod.fst
    (List.inj_on_of_nodup_map mapping_targets_nodup h₁ h₂ he))

/-- Witness for C5 at a concrete pair of entries. -/
theorem claim_C5_witness :
    ("a3", "weewx_ozone", "Ozone (ppb)").2.1 ≠
      ("altimeter", "weewx_altimeter",
        "Altimeter pressure in inHg or hPa").2.1 :=
  claim_C5_target_uniqueness
    ("a3", "weewx_ozone", "Ozone (ppb)") (by decide)
    ("altimeter", "weewx_altimeter", "Altimeter pressure in inHg or hPa")
    (by decide) (by decide)

/-- **C6** counterexample: the claim says a duplicate target name in the
mapping table is detected at startup-equivalent time and treated as a fatal
configuration error; but `__init__` performs no validation of the table at
all - handed a table with two source keys colliding on one target name, it
still succeeds, returning the empty gauge dict rather than an error. -/
theorem claim_C6_counterexample :
    initServiceChecked
        [("t1", "dup_target", "d1"), ("t2", "dup_target", "d2")] =
      Except.ok { prom_gauges := [] } := rfl

/-- **C6** (amended): there is no load-time validation: for every mapping
table, duplicate target names or not, `__init__` succeeds unconditionally
with an empty gauge dict, and in particular the shipped table is accepted
without any uniqueness check before the first record is processed. -/
theorem claim_C6_amended (table : List (String × String × String)) :
    initServiceChecked table = Except.ok { prom_gauges := [] } ∧
    initService = Except.ok { prom_gauges := [] } :=
  ⟨rfl, rfl⟩

/-- **C7** Order insensitivity: processing the same packet fields in any
permutation yields a registry with identical contents - lookup under every
metric name gives the same gauge (same name, description and value) - since
each field writes to its own gauge. -/
theorem claim_C7_order_insensitive (st : ServiceState)
    {r₁ r₂ : List (String × Option Value)} (hp : r₁.Perm r₂)
    (hnd : (r₁.map Prod.fst).Nodup) (k : String) :
    dictLookup (new_loop_packet st r₁).1.prom_gauges k =
      dictLookup (new_loop_packet st r₂).1.prom_gauges k := by
  have hnd₂ : (r₂.map Prod.fst).Nodup := ((hp.map Prod.fst).nodup_iff).mp hnd
  by_cases h : ∃ f ∈ r₁, touchesTarget k f
  · obtain ⟨f, hf, v, d, hv, hm⟩ := h
    have hfeq : f = (f.1, some v) := by rw [← hv]
    rw [hfeq] at hf
    have hf₂ : (f.1, some v) ∈ r₂ := hp.mem_iff.mp hf
    rw [new_loop_packet_lookup_hit st hm hf hnd,
        new_loop_packet_lookup_hit st hm hf₂ hnd₂]
  · push_neg at h
    have h₂ : ∀ f ∈ r₂, ¬ touchesTarget k f := fun f hf =>
      h f (hp.mem_iff.mpr hf)
    exact dictLookup_congr_filterKey
      ((new_loop_packet_frame st r₁ h).trans
        (new_loop_packet_frame st r₂ h₂).symm)

/-- Witness for C7 at a concrete input: two fields in both orders, checked
at outTemp's target name. -/
theorem claim_C7_witness :
    dictLookup (new_loop_packet { prom_gauges := [] }
        [("outTemp", some 1), ("inTemp", some 2)]).1.prom_gauges
      "weewx_outdoor_temperature" =
    dictLookup (new_loop_packet { prom_gauges := [] }
        [("inTemp", some 2), ("outTemp", some 1)]).1.prom_gauges
      "weewx_outdoor_temperature" :=
  claim_C7_order_insensitive { prom_gauges := [] }
    (by decide) (by decide) "weewx_outdoor_temperature"

/-- **C8** Gauge-lifecycle state machine: under each metric name the
registry is either absent or holds a gauge with a value; one packet can
only (a) keep a present gauge present, merely overwriting its value
(so the set of registered names never shrinks), and (b) turn an absent
entry present through the first non-null observation of a field mapped to
that name, the fresh gauge carrying that name, the table description and
the observed value; otherwise an absent entry stays absent. -/
theorem claim_C8_lifecycle (st : ServiceState)
    (r : List (String × Option Value)) (k : String)
    (hnd : (r.map Prod.fst).Nodup) :
    (∀ g, dictLookup st.prom_gauges k = some g →
      ∃ v, dictLookup (new_loop_packet st r).1.prom_gauges k =
        some (Gauge.set g v)) ∧
    (dictLookup st.prom_gauges k = none →
      dictLookup (new_loop_packet st r).1.prom_gauges k = none ∨
      ∃ w v d, (w, some v) ∈ r ∧ mappingFind w = some (k, d) ∧
        dictLookup (new_loop_packet st r).1.prom_gauges k =
          some (Gauge.set (Gauge.create k d) v)) ∧
    ((dictLookup st.prom_gauges k).isSome →
      (dictLookup (new_loop_packet st r).1.prom_gauges k).isSome) := by
  have hmain : (∀ g, dictLookup st.prom_gauges k = some g →
      ∃ v, dictLookup (new_loop_packet st r).1.prom_gauges k =
        some (Gauge.set g v)) ∧
      (dictLookup st.prom_gauges k = none →
        dictLookup (new_loop_packet st r).1.prom_gauges k = none ∨
        ∃ w v d, (w, some v) ∈ r ∧ mappingFind w = some (k, d) ∧
          dictLookup (new_loop_packet st r).1.prom_gauges k =
            some (Gauge.set (Gauge.create k d) v)) := by
    by_cases h : ∃ f ∈ r, touchesTarget k f
    · obtain ⟨f, hf, v, d, hv, hm⟩ := h
      have hfeq : f = (f.1, some v) := by rw [← hv]
      rw [hfeq] at hf
      have hl := new_loop_packet_lookup_hit st hm hf hnd
      constructor
      · intro g hg
        rw [hg] at hl
        exact ⟨v, hl⟩
      · intro hg
        rw [hg] at hl
        exact Or.inr ⟨f.1, v, d, hf, hm, hl⟩
    · push_neg at h
      have hlk := dictLookup_congr_filterKey (new_loop_packet_frame st r h)
      constructor
      · intro g hg
        refine ⟨g.value, ?_⟩
        rw [hlk, hg]
        cases g
        rfl
      · intro hg
        exact Or.inl (by rw [hlk, hg])
  refine ⟨hmain.1, hmain.2, ?_⟩
  intro hs
  obtain ⟨g, hg⟩ := Option.isSome_iff_exists.mp hs
  obtain ⟨v, hv⟩ := hmain.1 g hg
  rw [hv]
  rfl

/-- Witness for C8 at a concrete input: from the fresh empty registry, one
packet carrying outTemp flips its target name from absent to
present-with-value. -/
theorem claim_C8_witness :
    dictLookup (new_loop_packet { prom_gauges := [] }
        [("outTemp", some 5)]).1.prom_gauges "weewx_outdoor_temperature" =
      none ∨
    ∃ w v d, (w, some v) ∈ [("outTemp", some (5 : Value))] ∧
      mappingFind w = some ("weewx_outdoor_temperature", d) ∧
      dictLookup (new_loop_packet { prom_gauges := [] }
          [("outTemp", some 5)]).1.prom_gauges "weewx_outdoor_temperature" =
        some (Gauge.set (Gauge.create "weewx_outdoor_temperature" d) v) :=
  (claim_C8_lifecycle { prom_gauges := [] } [("outTemp", some 5)]
    "weewx_outdoor_temperature" (by decide)).2.1 rfl

/-- **C9** The end-to-end example of the spec: from a fresh service,
processing the record {outTemp: 21.5, unknownField: 3, inHumidity: None}
leaves exactly one series, weewx_outdoor_temperature, holding 21.5 with its
configured description, logs exactly one warning naming unknownField, and
creates or updates no series for inHumidity. -/
theorem claim_C9_end_to_end :
    new_loop_packet { prom_gauges := [] }
        [("outTemp", some (43 / 2)), ("unknownField", some 3),
         ("inHumidity", none)] =
      ({ prom_gauges := [("weewx_outdoor_temperature",
          { name := "weewx_outdoor_temperature",
            description := "Outdoor temperature (°F/°C)",
            value := 43 / 2 })] },
       [unmappedWarning "unknownField"]) := by rfl

/-- **C10** Registry-domain invariant: starting from the empty gauge dict
made at construction, after any sequence of loop packets every registry
entry is keyed by a target name of the table's range, its gauge carries
that name, and its description is exactly the one the table pairs with
that target name; no gauge ever exists under a name outside the range. -/
theorem claim_C10_registry_domain
    (packets : List (List (String × Option Value))) :
    registryConsistent (runPackets { prom_gauges := [] } packets) :=
  runPackets_consistent _ packets (fun e he => absurd he (List.not_mem_nil e))

/-- Witness for C10 at a concrete input: the entry created by one packet
carrying outTemp satisfies the invariant. -/
theorem claim_C10_witness :
    (Gauge.set (Gauge.create "weewx_outdoor_temperature"
        "Outdoor temperature (°F/°C)") 6).name =
      "weewx_outdoor_temperature" ∧
    ∃ m ∈ WEEWX_TO_PROMETHEUS_MAPPING,
      m.2.1 = "weewx_outdoor_temperature" ∧
      m.2.2 = (Gauge.set (Gauge.create "weewx_outdoor_temperature"
        "Outdoor temperature (°F/°C)") 6).description :=
  claim_C10_registry_domain [[("outTemp", some 6)]]
    ("weewx_outdoor_temperature",
      Gauge.set (Gauge.create "weewx_outdoor_temperature"
        "Outdoor temperature (°F/°C)") 6)
    (by decide)
